import Mathlib

/-!
# usdfun: launch registry and bonding-curve quotes

A shallow embedding of the pure parts of the repository:

* `src/token22.js`: `calculatePrice`, `calculateTokensForSol`, `calculateSolForTokens`;
* `src/launchpad.js`: `getBondingCurvePrice`, `calculateSellAmount`;
* `src/server.js`: the three `/api/launch*` routes over the in-memory array `launches`;
* `api/launches.js`: `handler`.

`api/launch.js`, whose create builds the same record but stores nothing, and the on-chain
functions are not embedded.

JavaScript numbers are embedded twice. `Token22.calculatePrice` and the two quote functions
are written over exact rationals, for the statements made in exact arithmetic. The same bodies
are also written over an arbitrary arithmetic (`NumberOps`), instantiated by exact rationals
and by finite doubles (rationals rounded to the nearest double after every operation). The
special values `Infinity` and `NaN`, which JavaScript produces on a division by zero or on
overflow, have no counterpart, so the value of a quotient is only ever stated for a non-zero
divisor.

The registry is embedded by explicit state passing: a route takes the array `launches` and
returns the response together with the array after the request.
-/

/-! ## JavaScript values and strings -/

/-- A value found in a parsed JSON request body. Objects and arrays are carried by their
JSON text; they are always truthy and have no `toUpperCase` method. -/
inductive JsVal where
  | undefined
  | null
  | bool (b : Bool)
  | num (q : ℚ)
  | str (s : String)
  | obj (json : String)
  deriving DecidableEq

namespace JsVal

/-- JavaScript truthiness (`!v` is the negation): `undefined`, `null`, `false`, `0` and `""`
are falsy, everything else is truthy. -/
def truthy : JsVal → Bool
  | undefined => false
  | null => false
  | bool b => b
  | num q => decide (q ≠ 0)
  | str s => decide (s ≠ "")
  | obj _ => true

/-- The JavaScript expression `a || b`. -/
def or (a b : JsVal) : JsVal :=
  if a.truthy then a else b

end JsVal

/-- `s.substring(a, b)` for non-negative integer indices: the arguments are swapped when
`a > b` and clamped to the length of the string. -/
def substring (s : String) (a b : Nat) : String :=
  String.mk ((s.data.take (max a b)).drop (min a b))

/-- `String.prototype.toUpperCase` restricted to ASCII letters, used to instantiate the
uppercase function on concrete inputs. -/
def asciiUpperCase (s : String) : String :=
  String.mk (s.data.map Char.toUpper)

/-! ## The launch registry (`src/server.js`, `api/launches.js`) -/

/-- The object literal `launch` built by the create route. -/
structure Launch where
  mint : String
  name : JsVal
  symbol : String
  description : JsVal
  image : JsVal
  twitter : JsVal
  website : JsVal
  creator : JsVal
  createdAt : String
  marketCap : String
  holders : Nat
  supply : String
  fee : String
  status : String
  deriving DecidableEq

/-- The fields destructured from `req.body` and read by the route; an absent field is
`undefined`. (`src/server.js` also destructures `initialBuy`, which it never reads.) -/
structure LaunchBody where
  name : JsVal
  symbol : JsVal
  description : JsVal
  image : JsVal
  twitter : JsVal
  website : JsVal
  creator : JsVal

/-- The value of `req.body` when the route runs: `undefined` when no body was parsed, `null`
when the body is the JSON text `null`, and otherwise a value that can be destructured, given
by the fields read from it. -/
inductive RequestBody where
  | undefined
  | null
  | object (fields : LaunchBody)

/-- The two ambient values read while a create request is served:
`random36` is the text of `Math.random().toString(36)` and `now` the text of
`new Date().toISOString()`. -/
structure Ambient where
  random36 : String
  now : String

/-- What a route sends: `res.json(launches)`, `res.json(launch)`,
`res.json({ success: true, mint, launch })`, or `res.status(code).json({ error })`. -/
inductive Response where
  | launches (ls : List Launch)
  | launch (l : Launch)
  | success (mint : String) (launch : Launch)
  | error (code : Nat) (message : String)
  deriving DecidableEq

/-- The method call `symbol.toUpperCase()`: a string is uppercased by `toUpperCase`; any other
value that reaches the call (a truthy boolean, number, object or array) has no such method and
the call throws a `TypeError` with the given message. -/
def callToUpperCase (toUpperCase : String → String) : JsVal → Except String String
  | JsVal.str s => Except.ok (toUpperCase s)
  | _ => Except.error "symbol.toUpperCase is not a function"

/-- `'T22' + Math.random().toString(36).substring(2, 10).toUpperCase()`. -/
def mockMint (toUpperCase : String → String) (amb : Ambient) : String :=
  "T22" ++ toUpperCase (substring amb.random36 2 10)

/-- The object literal assigned to `launch`, once `symbol.toUpperCase()` has returned
`symbol`. -/
def launchObject (toUpperCase : String → String) (amb : Ambient) (body : LaunchBody)
    (symbol : String) : Launch :=
  { mint := mockMint toUpperCase amb
    name := body.name
    symbol := symbol
    description := body.description.or (JsVal.str "")
    image := body.image.or JsVal.null
    twitter := body.twitter.or (JsVal.str "")
    website := body.website.or (JsVal.str "")
    creator := body.creator
    createdAt := amb.now
    marketCap := "$420"
    holders := 1
    supply := "1,000,000,000"
    fee := "1%"
    status := "active" }

/-- The `try` block shared verbatim by `app.post('/api/launch')` in `src/server.js`
(lines 34-66) and by the `POST` branch of `handler` in `api/launches.js` (lines 10-41), with
the `catch` clause that answers 500 with the error message. Two steps can throw, both before
`launches.unshift(launch)`: the destructuring of `req.body` when it is `undefined` or `null`,
and the call `symbol.toUpperCase()`. The messages are those of V8. -/
def createLaunch (toUpperCase : String → String) (amb : Ambient) (reqBody : RequestBody)
    (launches : List Launch) : Response × List Launch :=
  match reqBody with
  | RequestBody.undefined =>
    (Response.error 500
      "Cannot destructure property \x27name\x27 of \x27req.body\x27 as it is undefined.",
     launches)
  | RequestBody.null =>
    (Response.error 500
      "Cannot destructure property \x27name\x27 of \x27req.body\x27 as it is null.",
     launches)
  | RequestBody.object body =>
    if !body.name.truthy || !body.symbol.truthy || !body.creator.truthy then
      (Response.error 400 "Missing required fields", launches)
    else
      match callToUpperCase toUpperCase body.symbol with
      | Except.error message => (Response.error 500 message, launches)
      | Except.ok symbol =>
        let launch := launchObject toUpperCase amb body symbol
        (Response.success (mockMint toUpperCase amb) launch, launch :: launches)

namespace Server

/-- The route `app.get('/api/launches')`. -/
def getApiLaunches (launches : List Launch) : Response × List Launch :=
  (Response.launches launches, launches)

/-- The route `app.get('/api/launches/:mint')`. -/
def getApiLaunchesMint (mint : String) (launches : List Launch) : Response × List Launch :=
  match launches.find? (fun l => decide (l.mint = mint)) with
  | none => (Response.error 404 "Launch not found", launches)
  | some launch => (Response.launch launch, launches)

/-- The route `app.post('/api/launch')`. -/
def postApiLaunch (toUpperCase : String → String) (amb : Ambient) (reqBody : RequestBody)
    (launches : List Launch) : Response × List Launch :=
  createLaunch toUpperCase amb reqBody launches

/-- A run of create requests against one registry, oldest request first: the responses in
request order and the registry after the last request. -/
def postAll (toUpperCase : String → String) :
    List (Ambient × RequestBody) → List Launch → List Response × List Launch
  | [], launches => ([], launches)
  | (amb, reqBody) :: rest, launches =>
    let step := postApiLaunch toUpperCase amb reqBody launches
    let tail := postAll toUpperCase rest step.2
    (step.1 :: tail.1, tail.2)

end Server

namespace ApiLaunches

/-- The default export `handler` of `api/launches.js`, by request method. -/
def handler (toUpperCase : String → String) (amb : Ambient) (method : String)
    (reqBody : RequestBody) (launches : List Launch) : Response × List Launch :=
  if method = "GET" then
    (Response.launches launches, launches)
  else if method = "POST" then
    createLaunch toUpperCase amb reqBody launches
  else
    (Response.error 405 "Method not allowed", launches)

end ApiLaunches

/-- The mint carried by a successful create response, if the response is one. -/
def Response.mint? : Response → Option String
  | Response.success mint _ => some mint
  | _ => none

/-- A create response is successful when it is `{ success: true, mint, launch }`. -/
def Response.isSuccess : Response → Bool
  | Response.success _ _ => true
  | _ => false

/-- The mints returned by the successful creates of a run, in request order. -/
def returnedMints (responses : List Response) : List String :=
  responses.filterMap Response.mint?

/-- A field is missing or the empty string. -/
def JsVal.isMissingOrEmpty : JsVal → Bool
  | JsVal.undefined => true
  | JsVal.str s => decide (s = "")
  | _ => false

/-- A field is missing or holds a string. -/
def JsVal.isStringOrMissing : JsVal → Bool
  | JsVal.undefined => true
  | JsVal.str _ => true
  | _ => false

/-- A field holds a non-empty string. -/
def JsVal.isNonEmptyString : JsVal → Bool
  | JsVal.str s => decide (s ≠ "")
  | _ => false

/-- A valid create input: `name`, `symbol` and `creator` are non-empty strings. -/
def LaunchBody.isValid (body : LaunchBody) : Bool :=
  body.name.isNonEmptyString && body.symbol.isNonEmptyString && body.creator.isNonEmptyString

/-- A create input whose required fields are typed as the data model has them: each of
`name`, `symbol` and `creator` is missing or a string. -/
def LaunchBody.requiredAreStrings (body : LaunchBody) : Bool :=
  body.name.isStringOrMissing && body.symbol.isStringOrMissing && body.creator.isStringOrMissing

/-- At least one of `name`, `symbol`, `creator` is missing or the empty string. -/
def LaunchBody.lacksRequired (body : LaunchBody) : Bool :=
  body.name.isMissingOrEmpty || body.symbol.isMissingOrEmpty || body.creator.isMissingOrEmpty

/-- At least one of `name`, `symbol`, `creator` is falsy: missing, `null`, `false`, `0` or the
empty string. -/
def LaunchBody.hasFalsyRequired (body : LaunchBody) : Bool :=
  !body.name.truthy || !body.symbol.truthy || !body.creator.truthy

/-! ## Concrete requests -/

/-- The request body `{ name: "Foo", symbol: "foo", creator: "abc" }`. -/
def fooBody : LaunchBody :=
  { name := JsVal.str "Foo"
    symbol := JsVal.str "foo"
    description := JsVal.undefined
    image := JsVal.undefined
    twitter := JsVal.undefined
    website := JsVal.undefined
    creator := JsVal.str "abc" }

/-- The request body `{ name: "Bar", symbol: "bar", description: "second", creator: "xyz" }`. -/
def barBody : LaunchBody :=
  { name := JsVal.str "Bar"
    symbol := JsVal.str "bar"
    description := JsVal.str "second"
    image := JsVal.undefined
    twitter := JsVal.undefined
    website := JsVal.undefined
    creator := JsVal.str "xyz" }

/-- The request body `{ creator: "abc" }`, without `name` and `symbol`. -/
def creatorOnlyBody : LaunchBody :=
  { name := JsVal.undefined
    symbol := JsVal.undefined
    description := JsVal.undefined
    image := JsVal.undefined
    twitter := JsVal.undefined
    website := JsVal.undefined
    creator := JsVal.str "abc" }

/-- The request body `{ name: 0, symbol: "foo", creator: "abc" }`: every required field is
present and none is the empty string. -/
def zeroNameBody : LaunchBody :=
  { name := JsVal.num 0
    symbol := JsVal.str "foo"
    description := JsVal.undefined
    image := JsVal.undefined
    twitter := JsVal.undefined
    website := JsVal.undefined
    creator := JsVal.str "abc" }

/-- The request body `{ name: "Foo", symbol: "foo", creator: null }`. -/
def nullCreatorBody : LaunchBody :=
  { name := JsVal.str "Foo"
    symbol := JsVal.str "foo"
    description := JsVal.undefined
    image := JsVal.undefined
    twitter := JsVal.undefined
    website := JsVal.undefined
    creator := JsVal.null }

/-- A request served when `Math.random().toString(36)` reads `0.4fzyo82mvyr`. -/
def firstDraw : Ambient :=
  { random36 := "0.4fzyo82mvyr", now := "2024-01-01T00:00:00.000Z" }

/-- A later request for which `Math.random()` yields the same number again. -/
def repeatedDraw : Ambient :=
  { random36 := "0.4fzyo82mvyr", now := "2024-01-01T00:00:01.000Z" }

/-- A later request served when `Math.random().toString(36)` reads `0.k9x1c7qe0ab`. -/
def otherDraw : Ambient :=
  { random36 := "0.k9x1c7qe0ab", now := "2024-01-01T00:00:02.000Z" }

/-! ## Number arithmetic -/

/-- Rounding of a rational to the nearest integer, a tie going to the even neighbour. -/
def roundHalfEven (q : ℚ) : ℤ :=
  let f := Int.floor q
  if q - f < 1 / 2 then f
  else if 1 / 2 < q - f then f + 1
  else if f % 2 = 0 then f else f + 1

/-- The double (IEEE 754 binary64) nearest to the rational `x`, ties to even: 53 significant
bits at the binary exponent of `x`, and the fixed spacing `2 ^ (-1074)` below `2 ^ (-1022)`.
Finite doubles are the rationals this function leaves fixed; overflow to `Infinity` (from
`2 ^ 1024` on) is not represented. -/
def roundToDouble (x : ℚ) : ℚ :=
  if x = 0 then 0
  else
    let e := max (Int.log 2 |x|) (-1022)
    let ulp : ℚ := 2 ^ (e - 52)
    (roundHalfEven (x / ulp) : ℚ) * ulp

/-- The arithmetic the curve functions are written in: numeric literals, `+`, `*`, `/`,
`Math.pow(x, 2)` and `Math.floor`. In JavaScript each of them is a total function on numbers:
none of them throws. -/
structure NumberOps (N : Type) where
  ofNat : ℕ → N
  add : N → N → N
  mul : N → N → N
  div : N → N → N
  powTwo : N → N
  floor : N → N

/-- Exact rational arithmetic. -/
def exactOps : NumberOps ℚ :=
  { ofNat := fun n => (n : ℚ)
    add := fun a b => a + b
    mul := fun a b => a * b
    div := fun a b => a / b
    powTwo := fun a => a ^ 2
    floor := fun a => ((Int.floor a : ℤ) : ℚ) }

/-- The arithmetic of finite doubles: every operation returns the double nearest to the exact
result (for `Math.pow(x, 2)`, which engines only approximate, the correctly rounded square);
`Math.floor` is exact. A division by zero, which yields `Infinity` or `NaN`, is not
represented. -/
def doubleOps : NumberOps ℚ :=
  { ofNat := fun n => roundToDouble (n : ℚ)
    add := fun a b => roundToDouble (a + b)
    mul := fun a b => roundToDouble (a * b)
    div := fun a b => roundToDouble (a / b)
    powTwo := fun a => roundToDouble (a * a)
    floor := fun a => ((Int.floor a : ℤ) : ℚ) }

/-! ## The bonding curve of `src/token22.js` -/

namespace Token22

/-- The function `calculatePrice(soldSupply, totalSupply, initialMarketCap = 30000)`, in exact
rational arithmetic. -/
def calculatePrice (soldSupply totalSupply initialMarketCap : ℚ) : ℚ :=
  let percentSold := soldSupply / totalSupply
  let multiplier := 1 + (percentSold * 2) ^ 2
  let currentMarketCap := initialMarketCap * multiplier
  currentMarketCap / totalSupply

/-- The default value of the parameter `initialMarketCap`, used by both quote functions,
which call `calculatePrice` with two arguments. -/
def defaultInitialMarketCap : ℚ := 30000

/-- The function `calculateTokensForSol(solAmount, currentSold, totalSupply, solPrice)`, in
exact rational arithmetic; `Math.floor` yields an integer-valued number. -/
def calculateTokensForSol (solAmount currentSold totalSupply solPrice : ℚ) : ℚ :=
  let solValue := solAmount * solPrice
  let pricePerToken := calculatePrice currentSold totalSupply defaultInitialMarketCap
  ((Int.floor (solValue / pricePerToken) : ℤ) : ℚ)

/-- The function `calculateSolForTokens(tokenAmount, currentSold, totalSupply, solPrice)`, in
exact rational arithmetic. -/
def calculateSolForTokens (tokenAmount currentSold totalSupply solPrice : ℚ) : ℚ :=
  let pricePerToken :=
    calculatePrice (currentSold - tokenAmount / 2) totalSupply defaultInitialMarketCap
  let usdValue := tokenAmount * pricePerToken
  usdValue / solPrice

/-- The function `calculatePrice`, statement for statement, in a given arithmetic. -/
def calculatePriceOn {N : Type} (ops : NumberOps N)
    (soldSupply totalSupply initialMarketCap : N) : N :=
  let percentSold := ops.div soldSupply totalSupply
  let multiplier := ops.add (ops.ofNat 1) (ops.powTwo (ops.mul percentSold (ops.ofNat 2)))
  let currentMarketCap := ops.mul initialMarketCap multiplier
  ops.div currentMarketCap totalSupply

/-- The function `calculateTokensForSol`, statement for statement, in a given arithmetic. -/
def calculateTokensForSolOn {N : Type} (ops : NumberOps N)
    (solAmount currentSold totalSupply solPrice : N) : N :=
  let solValue := ops.mul solAmount solPrice
  let pricePerToken := calculatePriceOn ops currentSold totalSupply (ops.ofNat 30000)
  ops.floor (ops.div solValue pricePerToken)

/-- How a call of `calculatePrice` completes, in a given arithmetic: `Except.ok` carries the
returned number, `Except.error` the name of a thrown error. The body is three `const`
declarations and a `return`, each evaluated here in turn; it has no `throw` statement and
calls nothing but the arithmetic. -/
def calculatePriceCall {N : Type} (ops : NumberOps N)
    (soldSupply totalSupply initialMarketCap : N) : Except String N := do
  let percentSold ← pure (ops.div soldSupply totalSupply)
  let multiplier ←
    pure (ops.add (ops.ofNat 1) (ops.powTwo (ops.mul percentSold (ops.ofNat 2))))
  let currentMarketCap ← pure (ops.mul initialMarketCap multiplier)
  return ops.div currentMarketCap totalSupply

end Token22

/-! ## The bonding curve of `src/launchpad.js` -/

namespace Launchpad

/-- The function `getBondingCurvePrice(currentSupply, totalSupply)` with `k = 0.0000000001`. -/
def getBondingCurvePrice (currentSupply totalSupply : ℚ) : ℚ :=
  let k : ℚ := 1 / 10000000000
  let supplyRatio := currentSupply / totalSupply
  k * (supplyRatio * totalSupply) ^ 2

/-- The function `calculateSellAmount(tokenAmount, currentSupply, totalSupply)`; the factor
`0.99` carries the source comment `1% fee`. -/
def calculateSellAmount (tokenAmount currentSupply totalSupply : ℚ) : ℚ :=
  let currentPrice := getBondingCurvePrice currentSupply totalSupply
  tokenAmount * currentPrice * (99 / 100)

end Launchpad

/-! ## Shared lemmas on the arithmetic -/

theorem roundHalfEven_eq (q : ℚ) (k : ℤ) (h1 : (k : ℚ) - 1 / 2 < q) (h2 : q < k + 1 / 2) :
    roundHalfEven q = k := by
  unfold roundHalfEven
  by_cases hk : (k : ℚ) ≤ q
  · have hf : Int.floor q = k := by
      rw [Int.floor_eq_iff]
      constructor
      · exact hk
      · linarith
    simp only [hf]
    rw [if_pos (by linarith)]
  · push_neg at hk
    have hf : Int.floor q = k - 1 := by
      rw [Int.floor_eq_iff]
      push_cast
      constructor
      · linarith
      · linarith
    simp only [hf]
    push_cast
    rw [if_neg (by linarith), if_pos (by linarith)]
    ring

theorem roundToDouble_eq (x : ℚ) (e k : ℤ) (he : -1022 ≤ e)
    (hlo : (2 : ℚ) ^ e ≤ |x|) (hhi : |x| < (2 : ℚ) ^ (e + 1))
    (h1 : (k : ℚ) - 1 / 2 < x / 2 ^ (e - 52)) (h2 : x / 2 ^ (e - 52) < k + 1 / 2) :
    roundToDouble x = k * 2 ^ (e - 52) := by
  have hpos : (0 : ℚ) < |x| := lt_of_lt_of_le (by positivity) hlo
  have hx0 : x ≠ 0 := abs_pos.mp hpos
  have hlog : Int.log 2 |x| = e := by
    apply le_antisymm
    · have hlt := (Int.lt_zpow_iff_log_lt (R := ℚ) (b := 2) (by norm_num) hpos).mp
        (by exact_mod_cast hhi)
      omega
    · exact (Int.zpow_le_iff_le_log (R := ℚ) (b := 2) (by norm_num) hpos).mp
        (by exact_mod_cast hlo)
  unfold roundToDouble
  rw [if_neg hx0]
  simp only [hlog, max_eq_left he]
  rw [roundHalfEven_eq _ k h1 h2]

theorem calculatePriceOn_exact (soldSupply totalSupply initialMarketCap : ℚ) :
    Token22.calculatePriceOn exactOps soldSupply totalSupply initialMarketCap
      = Token22.calculatePrice soldSupply totalSupply initialMarketCap := by
  simp [Token22.calculatePriceOn, Token22.calculatePrice, exactOps]

theorem calculateTokensForSolOn_exact (solAmount currentSold totalSupply solPrice : ℚ) :
    Token22.calculateTokensForSolOn exactOps solAmount currentSold totalSupply solPrice
      = Token22.calculateTokensForSol solAmount currentSold totalSupply solPrice := by
  simp [Token22.calculateTokensForSolOn, Token22.calculateTokensForSol,
    Token22.calculatePriceOn, Token22.calculatePrice, Token22.defaultInitialMarketCap, exactOps]

theorem calculatePriceCall_eq {N : Type} (ops : NumberOps N)
    (soldSupply totalSupply initialMarketCap : N) :
    Token22.calculatePriceCall ops soldSupply totalSupply initialMarketCap
      = Except.ok (Token22.calculatePriceOn ops soldSupply totalSupply initialMarketCap) := by
  rfl

theorem doubleOps_ofNat (n : ℕ) : doubleOps.ofNat n = roundToDouble (n : ℚ) := rfl

theorem doubleOps_add (a b : ℚ) : doubleOps.add a b = roundToDouble (a + b) := rfl

theorem doubleOps_mul (a b : ℚ) : doubleOps.mul a b = roundToDouble (a * b) := rfl

theorem doubleOps_div (a b : ℚ) : doubleOps.div a b = roundToDouble (a / b) := rfl

theorem doubleOps_powTwo (a : ℚ) : doubleOps.powTwo a = roundToDouble (a * a) := rfl

theorem doubleOps_floor (a : ℚ) : doubleOps.floor a = ((Int.floor a : ℤ) : ℚ) := rfl

theorem calculatePriceOn_eq {N : Type} (ops : NumberOps N)
    (soldSupply totalSupply initialMarketCap : N) :
    Token22.calculatePriceOn ops soldSupply totalSupply initialMarketCap
      = ops.div (ops.mul initialMarketCap (ops.add (ops.ofNat 1)
          (ops.powTwo (ops.mul (ops.div soldSupply totalSupply) (ops.ofNat 2)))))
          totalSupply := rfl

theorem calculateTokensForSolOn_eq {N : Type} (ops : NumberOps N)
    (solAmount currentSold totalSupply solPrice : N) :
    Token22.calculateTokensForSolOn ops solAmount currentSold totalSupply solPrice
      = ops.floor (ops.div (ops.mul solAmount solPrice)
          (Token22.calculatePriceOn ops currentSold totalSupply (ops.ofNat 30000))) := rfl

theorem calculatePriceOn_double_at_334830661 :
    Token22.calculatePriceOn doubleOps 334830661 1000000000 30000
      = 6412588306974947 / 147573952589676412928 := by
  have hone : roundToDouble (((1 : ℕ) : ℚ)) = 1 := by
    rw [roundToDouble_eq _ 0 4503599627370496 (by norm_num) (by norm_num [abs_of_pos])
      (by norm_num [abs_of_pos]) (by norm_num) (by norm_num)]
    norm_num
  have htwo : roundToDouble (((2 : ℕ) : ℚ)) = 2 := by
    rw [roundToDouble_eq _ 1 4503599627370496 (by norm_num) (by norm_num [abs_of_pos])
      (by norm_num [abs_of_pos]) (by norm_num) (by norm_num)]
    norm_num
  have h1 : roundToDouble (334830661 / 1000000000) = 6031772960447267 / 18014398509481984 := by
    rw [roundToDouble_eq _ (-2) 6031772960447267 (by norm_num) (by norm_num [abs_of_pos])
      (by norm_num [abs_of_pos]) (by norm_num) (by norm_num)]
    norm_num
  have h2 : roundToDouble ((6031772960447267 / 18014398509481984) * 2)
      = 6031772960447267 / 9007199254740992 := by
    rw [roundToDouble_eq _ (-1) 6031772960447267 (by norm_num) (by norm_num [abs_of_pos])
      (by norm_num [abs_of_pos]) (by norm_num) (by norm_num)]
    norm_num
  have h3 : roundToDouble ((6031772960447267 / 9007199254740992) *
         (6031772960447267 / 9007199254740992))
      = 2019622527348485 / 4503599627370496 := by
    rw [roundToDouble_eq _ (-2) 8078490109393940 (by norm_num) (by norm_num [abs_of_pos])
      (by norm_num [abs_of_pos]) (by norm_num) (by norm_num)]
    norm_num
  have h4 : roundToDouble (1 + (2019622527348485 / 4503599627370496))
      = 6523222154718981 / 4503599627370496 := by
    rw [roundToDouble_eq _ 0 6523222154718981 (by norm_num) (by norm_num [abs_of_pos])
      (by norm_num [abs_of_pos]) (by norm_num) (by norm_num)]
    norm_num
  have h5 : roundToDouble (30000 * (6523222154718981 / 4503599627370496))
      = 1493047063000255 / 34359738368 := by
    rw [roundToDouble_eq _ 15 5972188252001020 (by norm_num) (by norm_num [abs_of_pos])
      (by norm_num [abs_of_pos]) (by norm_num) (by norm_num)]
    norm_num
  have h6 : roundToDouble ((1493047063000255 / 34359738368) / 1000000000)
      = 6412588306974947 / 147573952589676412928 := by
    rw [roundToDouble_eq _ (-15) 6412588306974947 (by norm_num) (by norm_num [abs_of_pos])
      (by norm_num [abs_of_pos]) (by norm_num) (by norm_num)]
    norm_num
  rw [calculatePriceOn_eq, doubleOps_div, doubleOps_div, doubleOps_mul, doubleOps_mul,
    doubleOps_add, doubleOps_powTwo, doubleOps_ofNat, doubleOps_ofNat,
    hone, htwo, h1, h2, h3, h4, h5, h6]

theorem calculatePriceOn_double_at_neg_one :
    Token22.calculatePriceOn doubleOps (-1) 1000 30000
      = 2111070769579221 / 70368744177664 := by
  have hone : roundToDouble (((1 : ℕ) : ℚ)) = 1 := by
    rw [roundToDouble_eq _ 0 4503599627370496 (by norm_num) (by norm_num [abs_of_pos])
      (by norm_num [abs_of_pos]) (by norm_num) (by norm_num)]
    norm_num
  have htwo : roundToDouble (((2 : ℕ) : ℚ)) = 2 := by
    rw [roundToDouble_eq _ 1 4503599627370496 (by norm_num) (by norm_num [abs_of_pos])
      (by norm_num [abs_of_pos]) (by norm_num) (by norm_num)]
    norm_num
  have h1 : roundToDouble ((-1) / 1000) = (-1152921504606847 / 1152921504606846976) := by
    rw [roundToDouble_eq _ (-10) (-4611686018427388) (by norm_num) (by norm_num [abs_of_neg])
      (by norm_num [abs_of_neg]) (by norm_num) (by norm_num)]
    norm_num
  have h2 : roundToDouble ((-1152921504606847 / 1152921504606846976) * 2)
      = (-1152921504606847 / 576460752303423488) := by
    rw [roundToDouble_eq _ (-9) (-4611686018427388) (by norm_num) (by norm_num [abs_of_neg])
      (by norm_num [abs_of_neg]) (by norm_num) (by norm_num)]
    norm_num
  have h3 : roundToDouble ((-1152921504606847 / 576460752303423488) *
         (-1152921504606847 / 576460752303423488))
      = 4722366482869645 / 1180591620717411303424 := by
    rw [roundToDouble_eq _ (-18) 4722366482869645 (by norm_num) (by norm_num [abs_of_pos])
      (by norm_num [abs_of_pos]) (by norm_num) (by norm_num)]
    norm_num
  have h4 : roundToDouble (1 + (4722366482869645 / 1180591620717411303424))
      = 4503617641769005 / 4503599627370496 := by
    rw [roundToDouble_eq _ 0 4503617641769005 (by norm_num) (by norm_num [abs_of_pos])
      (by norm_num [abs_of_pos]) (by norm_num) (by norm_num)]
    norm_num
  have h5 : roundToDouble (30000 * (4503617641769005 / 4503599627370496))
      = 257699068552151 / 8589934592 := by
    rw [roundToDouble_eq _ 14 8246370193668832 (by norm_num) (by norm_num [abs_of_pos])
      (by norm_num [abs_of_pos]) (by norm_num) (by norm_num)]
    norm_num
  have h6 : roundToDouble ((257699068552151 / 8589934592) / 1000)
      = 2111070769579221 / 70368744177664 := by
    rw [roundToDouble_eq _ 4 8444283078316884 (by norm_num) (by norm_num [abs_of_pos])
      (by norm_num [abs_of_pos]) (by norm_num) (by norm_num)]
    norm_num
  rw [calculatePriceOn_eq, doubleOps_div, doubleOps_div, doubleOps_mul, doubleOps_mul,
    doubleOps_add, doubleOps_powTwo, doubleOps_ofNat, doubleOps_ofNat,
    hone, htwo, h1, h2, h3, h4, h5, h6]

theorem calculateTokensForSolOn_double_at_3657 :
    Token22.calculateTokensForSolOn doubleOps 3657 334830661 1000000000 150
      = 12623871644 := by
  have hprice := calculatePriceOn_double_at_334830661
  have hcap : roundToDouble (((30000 : ℕ) : ℚ)) = 30000 := by
    rw [roundToDouble_eq _ 14 8246337208320000 (by norm_num) (by norm_num [abs_of_pos])
      (by norm_num [abs_of_pos]) (by norm_num) (by norm_num)]
    norm_num
  have h7 : roundToDouble (3657 * 150) = 548550 := by
    rw [roundToDouble_eq _ 19 4712008620441600 (by norm_num) (by norm_num [abs_of_pos])
      (by norm_num [abs_of_pos]) (by norm_num) (by norm_num)]
    norm_num
  have h8 : roundToDouble (548550 / (6412588306974947 / 147573952589676412928)) = 12623871644 := by
    rw [roundToDouble_eq _ 33 6618544416489472 (by norm_num) (by norm_num [abs_of_pos])
      (by norm_num [abs_of_pos]) (by norm_num) (by norm_num)]
    norm_num
  have hfloor : Int.floor (12623871644 : ℚ) = 12623871644 := by
    exact_mod_cast Int.floor_intCast (12623871644 : ℤ)
  rw [calculateTokensForSolOn_eq, doubleOps_ofNat, hcap, hprice, doubleOps_floor,
    doubleOps_div, doubleOps_mul, h7, h8, hfloor]
  norm_num

/-! ## Shared lemmas on the registry -/

theorem truthy_of_isNonEmptyString (v : JsVal) (h : v.isNonEmptyString = true) :
    v.truthy = true := by
  cases v <;> simp_all [JsVal.isNonEmptyString, JsVal.truthy]

theorem createLaunch_of_valid (toUpperCase : String → String) (amb : Ambient)
    (body : LaunchBody) (launches : List Launch) (h : body.isValid = true) :
    ∃ s, body.symbol = JsVal.str s ∧
      createLaunch toUpperCase amb (RequestBody.object body) launches
        = (Response.success (mockMint toUpperCase amb)
            (launchObject toUpperCase amb body (toUpperCase s)),
           launchObject toUpperCase amb body (toUpperCase s) :: launches) := by
  simp only [LaunchBody.isValid, Bool.and_eq_true] at h
  obtain ⟨⟨hn, hs⟩, hc⟩ := h
  have tn := truthy_of_isNonEmptyString _ hn
  have ts := truthy_of_isNonEmptyString _ hs
  have tc := truthy_of_isNonEmptyString _ hc
  cases hsym : body.symbol with
  | str s =>
    refine ⟨s, rfl, ?_⟩
    rw [hsym] at ts
    simp [createLaunch, tn, tc, ts, hsym, callToUpperCase]
  | _ => simp [hsym, JsVal.isNonEmptyString] at hs

theorem createLaunch_cases (toUpperCase : String → String) (amb : Ambient)
    (reqBody : RequestBody) (launches : List Launch) :
    (∃ code message,
        createLaunch toUpperCase amb reqBody launches
          = (Response.error code message, launches)) ∨
    (∃ launch, launch.mint = mockMint toUpperCase amb ∧
        createLaunch toUpperCase amb reqBody launches
          = (Response.success (mockMint toUpperCase amb) launch, launch :: launches)) := by
  cases reqBody with
  | undefined => exact Or.inl ⟨_, _, rfl⟩
  | null => exact Or.inl ⟨_, _, rfl⟩
  | object body =>
    simp only [createLaunch]
    split
    · exact Or.inl ⟨_, _, rfl⟩
    · split
      · exact Or.inl ⟨_, _, rfl⟩
      · exact Or.inr ⟨_, rfl, rfl⟩

theorem postAll_stored_mints (toUpperCase : String → String)
    (reqs : List (Ambient × RequestBody)) (launches : List Launch) :
    (Server.postAll toUpperCase reqs launches).2.map Launch.mint
      = (returnedMints (Server.postAll toUpperCase reqs launches).1).reverse
          ++ launches.map Launch.mint := by
  induction reqs generalizing launches with
  | nil => simp [Server.postAll, returnedMints]
  | cons r rest ih =>
    obtain ⟨amb, body⟩ := r
    simp only [Server.postAll, Server.postApiLaunch]
    rw [ih]
    rcases createLaunch_cases toUpperCase amb body launches with ⟨c, m, h⟩ | ⟨l, hl, h⟩
    · simp [h, returnedMints, Response.mint?]
    · simp [h, returnedMints, Response.mint?, hl]

theorem postAll_returned_sublist (toUpperCase : String → String)
    (reqs : List (Ambient × RequestBody)) (launches : List Launch) :
    List.Sublist (returnedMints (Server.postAll toUpperCase reqs launches).1)
      (reqs.map (fun r => mockMint toUpperCase r.1)) := by
  induction reqs generalizing launches with
  | nil => simp [Server.postAll, returnedMints]
  | cons r rest ih =>
    obtain ⟨amb, body⟩ := r
    simp only [Server.postAll, Server.postApiLaunch, List.map_cons]
    rcases createLaunch_cases toUpperCase amb body launches with ⟨c, m, h⟩ | ⟨l, _, h⟩
    · simp only [h, returnedMints, List.filterMap_cons, Response.mint?]
      exact List.Sublist.cons _ (ih launches)
    · simp only [h, returnedMints, List.filterMap_cons, Response.mint?]
      exact List.Sublist.cons₂ _ (ih (l :: launches))

theorem handler_post (toUpperCase : String → String) (amb : Ambient) (reqBody : RequestBody)
    (launches : List Launch) :
    ApiLaunches.handler toUpperCase amb "POST" reqBody launches
      = Server.postApiLaunch toUpperCase amb reqBody launches := by
  simp [ApiLaunches.handler, Server.postApiLaunch]

theorem find_mint_of_mem (launches : List Launch) (m : String)
    (h : ∃ l ∈ launches, l.mint = m) :
    ∃ r, launches.find? (fun l => decide (l.mint = m)) = some r ∧ r.mint = m ∧ r ∈ launches := by
  obtain ⟨l, hl, hm⟩ := h
  cases hf : launches.find? (fun l => decide (l.mint = m)) with
  | none =>
    have := List.find?_eq_none.mp hf l hl
    simp [hm] at this
  | some r =>
    refine ⟨r, rfl, ?_, List.mem_of_find?_eq_some hf⟩
    have := List.find?_some hf
    simpa using this

theorem getApiLaunchesMint_found (launches : List Launch) (m : String)
    (h : ∃ l ∈ launches, l.mint = m) :
    ∃ r, Server.getApiLaunchesMint m launches = (Response.launch r, launches) ∧
      r.mint = m ∧ r ∈ launches := by
  obtain ⟨r, hf, hm, hr⟩ := find_mint_of_mem launches m h
  exact ⟨r, by simp [Server.getApiLaunchesMint, hf], hm, hr⟩

theorem getApiLaunchesMint_not_found (launches : List Launch) (m : String) :
    (Server.getApiLaunchesMint m launches).1 = Response.error 404 "Launch not found"
      ↔ ¬ ∃ l ∈ launches, l.mint = m := by
  constructor
  · intro h hex
    obtain ⟨r, hr, _, _⟩ := getApiLaunchesMint_found launches m hex
    rw [hr] at h
    simp at h
  · intro h
    have hf : launches.find? (fun l => decide (l.mint = m)) = none := by
      apply List.find?_eq_none.mpr
      intro l hl
      simp only [decide_eq_true_eq]
      exact fun hm => h ⟨l, hl, hm⟩
    simp [Server.getApiLaunchesMint, hf]

theorem not_truthy_eq_isMissingOrEmpty (v : JsVal) (h : v.isStringOrMissing = true) :
    (!v.truthy) = v.isMissingOrEmpty := by
  cases v <;> simp_all [JsVal.isStringOrMissing, JsVal.truthy, JsVal.isMissingOrEmpty]

theorem createLaunch_validation_iff (toUpperCase : String → String) (amb : Ambient)
    (body : LaunchBody) (launches : List Launch) :
    (createLaunch toUpperCase amb (RequestBody.object body) launches).1
        = Response.error 400 "Missing required fields"
      ↔ body.hasFalsyRequired = true := by
  simp only [createLaunch, LaunchBody.hasFalsyRequired]
  split
  · simp [*]
  · split <;> simp [*]

theorem createLaunch_error_frame (toUpperCase : String → String) (amb : Ambient)
    (reqBody : RequestBody) (launches : List Launch) (code : Nat) (message : String)
    (h : (createLaunch toUpperCase amb reqBody launches).1 = Response.error code message) :
    (createLaunch toUpperCase amb reqBody launches).2 = launches := by
  rcases createLaunch_cases toUpperCase amb reqBody launches with ⟨c, m, hc⟩ | ⟨l, _, hl⟩
  · simp [hc]
  · simp [hl] at h

/-! ## Shared lemmas on the curve -/

namespace Token22

theorem calculatePrice_closed_form (soldSupply totalSupply initialMarketCap : ℚ) :
    calculatePrice soldSupply totalSupply initialMarketCap
      = initialMarketCap * (1 + (2 * soldSupply / totalSupply) ^ 2) / totalSupply := by
  unfold calculatePrice
  ring

theorem calculatePrice_default_pos (soldSupply totalSupply : ℚ) (hT : 0 < totalSupply) :
    0 < calculatePrice soldSupply totalSupply defaultInitialMarketCap := by
  rw [calculatePrice_closed_form]
  unfold defaultInitialMarketCap
  have h1 : (0 : ℚ) < 1 + (2 * soldSupply / totalSupply) ^ 2 := by positivity
  positivity

theorem calculatePrice_le_of_sq_le (a b totalSupply initialMarketCap : ℚ)
    (hT : 0 < totalSupply) (hM : 0 ≤ initialMarketCap) (hab : a ^ 2 ≤ b ^ 2) :
    calculatePrice a totalSupply initialMarketCap
      ≤ calculatePrice b totalSupply initialMarketCap := by
  rw [calculatePrice_closed_form, calculatePrice_closed_form]
  apply div_le_div_of_nonneg_right _ hT.le
  apply mul_le_mul_of_nonneg_left _ hM
  have h2 : (2 * a / totalSupply) ^ 2 ≤ (2 * b / totalSupply) ^ 2 := by
    rw [div_pow, div_pow]
    apply div_le_div_of_nonneg_right _ (by positivity)
    nlinarith
  linarith

end Token22

/-! ## The endpoints of the curve -/

/-- C1: for every totalSupply > 0 and every initialMarketCap, calculatePrice at soldSupply = 0
is initialMarketCap / totalSupply and at soldSupply = totalSupply is
5 * initialMarketCap / totalSupply; in particular calculatePrice(0, 1000, 30000) = 30 and
calculatePrice(1000, 1000, 30000) = 150. -/
theorem calculatePrice_endpoints (totalSupply initialMarketCap : ℚ) (hT : 0 < totalSupply) :
    Token22.calculatePrice 0 totalSupply initialMarketCap = initialMarketCap / totalSupply ∧
    Token22.calculatePrice totalSupply totalSupply initialMarketCap
      = 5 * initialMarketCap / totalSupply ∧
    Token22.calculatePrice 0 1000 30000 = 30 ∧
    Token22.calculatePrice 1000 1000 30000 = 150 := by
  have hT0 : totalSupply ≠ 0 := ne_of_gt hT
  refine ⟨?_, ?_, ?_, ?_⟩
  · unfold Token22.calculatePrice
    simp
  · unfold Token22.calculatePrice
    rw [div_self hT0]
    ring
  · norm_num [Token22.calculatePrice]
  · norm_num [Token22.calculatePrice]

/-- The endpoints of the curve at totalSupply = 2000 and initialMarketCap = 50000. -/
theorem calculatePrice_endpoints_witness :
    (0 : ℚ) < 2000 ∧
    Token22.calculatePrice 0 2000 50000 = 50000 / 2000 ∧
    Token22.calculatePrice 2000 2000 50000 = 5 * 50000 / 2000 :=
  ⟨by norm_num, (calculatePrice_endpoints 2000 50000 (by norm_num)).1,
    (calculatePrice_endpoints 2000 50000 (by norm_num)).2.1⟩

/-! ## Monotonicity -/

/-- C2 as stated fails: with a negative initialMarketCap the price falls as soldSupply grows;
calculatePrice(0, 1000, -30000) = -30 while calculatePrice(1000, 1000, -30000) = -150. -/
theorem calculatePrice_mono_counterexample :
    ¬ (∀ totalSupply initialMarketCap s1 s2 : ℚ, 0 < totalSupply → 0 ≤ s1 → s1 ≤ s2 →
        s2 ≤ totalSupply →
        Token22.calculatePrice s1 totalSupply initialMarketCap
          ≤ Token22.calculatePrice s2 totalSupply initialMarketCap) := by
  intro h
  have h1 := h 1000 (-30000) 0 1000 (by norm_num) (by norm_num) (by norm_num) (by norm_num)
  norm_num [Token22.calculatePrice] at h1

/-- C2, amended: for every initialMarketCap >= 0, every totalSupply > 0 and every s1, s2 with
0 <= s1 <= s2 <= totalSupply, calculatePrice(s1, totalSupply, initialMarketCap) is at most
calculatePrice(s2, totalSupply, initialMarketCap). -/
theorem calculatePrice_mono (totalSupply initialMarketCap s1 s2 : ℚ)
    (hT : 0 < totalSupply) (hM : 0 ≤ initialMarketCap)
    (h1 : 0 ≤ s1) (h12 : s1 ≤ s2) (_h2 : s2 ≤ totalSupply) :
    Token22.calculatePrice s1 totalSupply initialMarketCap
      ≤ Token22.calculatePrice s2 totalSupply initialMarketCap := by
  apply Token22.calculatePrice_le_of_sq_le _ _ _ _ hT hM
  nlinarith

/-- The price at 250 sold is at most the price at 750 sold, of 1000, at the default cap. -/
theorem calculatePrice_mono_witness :
    Token22.calculatePrice 250 1000 30000 ≤ Token22.calculatePrice 750 1000 30000 :=
  calculatePrice_mono 1000 30000 250 750 (by norm_num) (by norm_num) (by norm_num)
    (by norm_num) (by norm_num)

/-! ## Domain checks -/

/-- C7 as stated fails: calculatePrice(-1, 1000, 30000) has a negative soldSupply, yet the call
returns a number instead of failing with DomainError: in double arithmetic the double
2111070769579221 / 2^46 (30.000119999999995), in exact arithmetic 750003/25000. -/
theorem calculatePrice_domainError_counterexample :
    Token22.calculatePriceCall doubleOps (-1) 1000 30000
      = Except.ok (2111070769579221 / 70368744177664) ∧
    Token22.calculatePriceCall exactOps (-1) 1000 30000 = Except.ok (750003 / 25000) ∧
    ¬ (∀ soldSupply totalSupply initialMarketCap : ℚ,
        (totalSupply ≤ 0 ∨ soldSupply < 0 ∨ totalSupply < soldSupply) →
        Token22.calculatePriceCall doubleOps soldSupply totalSupply initialMarketCap
          = Except.error "DomainError") ∧
    ¬ (∀ soldSupply totalSupply initialMarketCap : ℚ,
        (totalSupply ≤ 0 ∨ soldSupply < 0 ∨ totalSupply < soldSupply) →
        Token22.calculatePriceCall exactOps soldSupply totalSupply initialMarketCap
          = Except.error "DomainError") := by
  refine ⟨?_, ?_, ?_, ?_⟩
  · rw [calculatePriceCall_eq, calculatePriceOn_double_at_neg_one]
  · rw [calculatePriceCall_eq, calculatePriceOn_exact]
    norm_num [Token22.calculatePrice]
  · intro h
    have h1 := h (-1) 1000 30000 (Or.inr (Or.inl (by norm_num)))
    rw [calculatePriceCall_eq] at h1
    exact absurd h1 (by simp)
  · intro h
    have h1 := h (-1) 1000 30000 (Or.inr (Or.inl (by norm_num)))
    rw [calculatePriceCall_eq] at h1
    exact absurd h1 (by simp)

/-- C7, amended: calculatePrice performs no domain check and never fails, with DomainError or
with any other error: in every arithmetic and for every soldSupply, totalSupply and
initialMarketCap (totalSupply <= 0, soldSupply < 0 and soldSupply > totalSupply included) the
call returns the number its arithmetic steps compute, the quotient soldSupply / totalSupply
doubled, squared, increased by 1, multiplied by initialMarketCap and divided by totalSupply;
in exact rational arithmetic and for totalSupply other than 0 that number is
initialMarketCap * (1 + (2 * soldSupply / totalSupply)^2) / totalSupply. -/
theorem calculatePrice_no_domain_check {N : Type} (ops : NumberOps N)
    (soldSupply totalSupply initialMarketCap : N) :
    Token22.calculatePriceCall ops soldSupply totalSupply initialMarketCap
      = Except.ok (ops.div (ops.mul initialMarketCap (ops.add (ops.ofNat 1)
          (ops.powTwo (ops.mul (ops.div soldSupply totalSupply) (ops.ofNat 2)))))
          totalSupply) ∧
    (∀ errorName : String,
      Token22.calculatePriceCall ops soldSupply totalSupply initialMarketCap
        ≠ Except.error errorName) ∧
    (∀ s t m : ℚ, t ≠ 0 →
      Token22.calculatePriceCall exactOps s t m
        = Except.ok (m * (1 + (2 * s / t) ^ 2) / t)) := by
  refine ⟨?_, ?_, ?_⟩
  · rw [calculatePriceCall_eq, calculatePriceOn_eq]
  · intro errorName
    rw [calculatePriceCall_eq]
    simp
  · intro s t m _
    rw [calculatePriceCall_eq, calculatePriceOn_exact, Token22.calculatePrice_closed_form]

/-- In exact arithmetic the call returns the value of the formula at
soldSupply = 1500 > totalSupply = 1000, and in double arithmetic it does not fail at the
negative totalSupply = -10. -/
theorem calculatePrice_no_domain_check_witness :
    Token22.calculatePriceCall exactOps 1500 1000 30000
      = Except.ok (30000 * (1 + (2 * 1500 / 1000) ^ 2) / 1000) ∧
    Token22.calculatePriceCall doubleOps 5 (-10) 30000 ≠ Except.error "DomainError" :=
  ⟨(calculatePrice_no_domain_check exactOps 0 0 0).2.2 1500 1000 30000 (by norm_num),
    (calculatePrice_no_domain_check doubleOps 5 (-10) 30000).2.1 "DomainError"⟩

/-! ## Buy quote -/

/-- C8 as stated fails in the double arithmetic the code runs in:
calculateTokensForSol(3657, 334830661, 1000000000, 150) divides 548550 by the price
6412588306974947 / 2^67 (4.345338858548363e-05), the quotient rounds up to the double
12623871644, and that is the result. The floor of the quotient is 12623871643, with the price
as a double and with the exact price alike, and 12623871644 tokens cost more than the 548550
paid, at either price. -/
theorem calculateTokensForSol_floor_counterexample :
    Token22.calculateTokensForSolOn doubleOps 3657 334830661 1000000000 150 = 12623871644 ∧
    Token22.calculatePriceOn doubleOps 334830661 1000000000 30000
      = 6412588306974947 / 147573952589676412928 ∧
    Int.floor ((3657 : ℚ) * 150
        / Token22.calculatePriceOn doubleOps 334830661 1000000000 30000) = 12623871643 ∧
    Int.floor ((3657 : ℚ) * 150
        / Token22.calculatePrice 334830661 1000000000 30000) = 12623871643 ∧
    (3657 : ℚ) * 150
      < 12623871644 * Token22.calculatePriceOn doubleOps 334830661 1000000000 30000 ∧
    (3657 : ℚ) * 150 < 12623871644 * Token22.calculatePrice 334830661 1000000000 30000 ∧
    ¬ (∀ currencyAmount exchangeRate totalSupply soldSupply : ℚ,
        0 ≤ currencyAmount → 0 ≤ exchangeRate → 0 < totalSupply → 0 ≤ soldSupply →
        soldSupply ≤ totalSupply →
        Token22.calculateTokensForSolOn doubleOps currencyAmount soldSupply totalSupply
            exchangeRate
          * Token22.calculatePriceOn doubleOps soldSupply totalSupply 30000
          ≤ currencyAmount * exchangeRate) := by
  have hp := calculatePriceOn_double_at_334830661
  have hn := calculateTokensForSolOn_double_at_3657
  refine ⟨hn, hp, ?_, ?_, ?_, ?_, ?_⟩
  · rw [hp, Int.floor_eq_iff]
    constructor <;> norm_num
  · rw [Int.floor_eq_iff]
    constructor <;> norm_num [Token22.calculatePrice]
  · rw [hp]
    norm_num
  · norm_num [Token22.calculatePrice]
  · intro h
    have h1 := h 3657 150 1000000000 334830661 (by norm_num) (by norm_num) (by norm_num)
      (by norm_num) (by norm_num)
    rw [hn, hp] at h1
    norm_num at h1

/-- C8, amended: in exact rational arithmetic, for every currencyAmount >= 0,
exchangeRate >= 0, totalSupply > 0 and 0 <= soldSupply <= totalSupply, calculateTokensForSol
returns the integer
n = floor(currencyAmount * exchangeRate / calculatePrice(soldSupply, totalSupply)), and
n >= 0 and n * price <= currencyAmount * exchangeRate < (n + 1) * price. -/
theorem calculateTokensForSol_floor (currencyAmount exchangeRate totalSupply soldSupply : ℚ)
    (hc : 0 ≤ currencyAmount) (hr : 0 ≤ exchangeRate) (hT : 0 < totalSupply)
    (_hs0 : 0 ≤ soldSupply) (_hsT : soldSupply ≤ totalSupply) :
    ∃ n : ℤ,
      Token22.calculateTokensForSol currencyAmount soldSupply totalSupply exchangeRate = (n : ℚ) ∧
      n = Int.floor (currencyAmount * exchangeRate
            / Token22.calculatePrice soldSupply totalSupply 30000) ∧
      0 ≤ n ∧
      (n : ℚ) * Token22.calculatePrice soldSupply totalSupply 30000
        ≤ currencyAmount * exchangeRate ∧
      currencyAmount * exchangeRate
        < ((n : ℚ) + 1) * Token22.calculatePrice soldSupply totalSupply 30000 := by
  have hP : 0 < Token22.calculatePrice soldSupply totalSupply 30000 :=
    Token22.calculatePrice_default_pos soldSupply totalSupply hT
  refine ⟨Int.floor (currencyAmount * exchangeRate
            / Token22.calculatePrice soldSupply totalSupply 30000), rfl, rfl, ?_, ?_, ?_⟩
  · apply Int.floor_nonneg.mpr
    exact div_nonneg (mul_nonneg hc hr) hP.le
  · exact (le_div_iff₀ hP).mp (Int.floor_le _)
  · exact (div_lt_iff₀ hP).mp (Int.lt_floor_add_one _)

/-- The buy quote for 1 unit of currency at rate 150, with 500 of 1000 sold. -/
theorem calculateTokensForSol_floor_witness :
    ∃ n : ℤ,
      Token22.calculateTokensForSol 1 500 1000 150 = (n : ℚ) ∧
      n = Int.floor ((1 : ℚ) * 150 / Token22.calculatePrice 500 1000 30000) ∧
      0 ≤ n ∧
      (n : ℚ) * Token22.calculatePrice 500 1000 30000 ≤ 1 * 150 ∧
      (1 : ℚ) * 150 < ((n : ℚ) + 1) * Token22.calculatePrice 500 1000 30000 :=
  calculateTokensForSol_floor 1 150 1000 500 (by norm_num) (by norm_num) (by norm_num)
    (by norm_num) (by norm_num)

/-! ## Sell quote -/

/-- C9, the code at the failing input: calculateSolForTokens(100, 500, 1000, 150) returns
181/5 = 36.2, the midpoint value 100 * calculatePrice(450, 1000) / 150 with nothing deducted,
where the claim gives 0.99 * 36.2 = 17919/500 = 35.838. For non-zero totalSupply and
exchangeRate the function returns
tokenAmount * calculatePrice(soldSupply - tokenAmount/2, totalSupply) / exchangeRate, while
calculateSellAmount of launchpad.js multiplies its quote by 0.99. -/
theorem calculateSolForTokens_omits_fee :
    Token22.calculateSolForTokens 100 500 1000 150 = 181 / 5 ∧
    (99 / 100 : ℚ) * 100 * Token22.calculatePrice (500 - 100 / 2) 1000 30000 / 150
      = 17919 / 500 ∧
    Token22.calculateSolForTokens 100 500 1000 150
      ≠ (99 / 100 : ℚ) * 100 * Token22.calculatePrice (500 - 100 / 2) 1000 30000 / 150 ∧
    (∀ tokenAmount soldSupply totalSupply exchangeRate : ℚ,
      totalSupply ≠ 0 → exchangeRate ≠ 0 →
      Token22.calculateSolForTokens tokenAmount soldSupply totalSupply exchangeRate
        = tokenAmount
            * Token22.calculatePrice (soldSupply - tokenAmount / 2) totalSupply 30000
            / exchangeRate) ∧
    (∀ tokenAmount currentSupply totalSupply : ℚ,
      totalSupply ≠ 0 →
      Launchpad.calculateSellAmount tokenAmount currentSupply totalSupply
        = (99 / 100 : ℚ)
            * (tokenAmount * Launchpad.getBondingCurvePrice currentSupply totalSupply)) := by
  refine ⟨?_, ?_, ?_, ?_, ?_⟩
  · norm_num [Token22.calculateSolForTokens, Token22.calculatePrice,
      Token22.defaultInitialMarketCap]
  · norm_num [Token22.calculatePrice]
  · norm_num [Token22.calculateSolForTokens, Token22.calculatePrice,
      Token22.defaultInitialMarketCap]
  · intro tokenAmount soldSupply totalSupply exchangeRate _ _
    rfl
  · intro tokenAmount currentSupply totalSupply _
    unfold Launchpad.calculateSellAmount
    ring

/-! ## Buying and selling back -/

/-- C10: for every currencyAmount >= 0, exchangeRate > 0, totalSupply > 0 and soldSupply >= 0,
with t = calculateTokensForSol(currencyAmount, soldSupply, totalSupply, exchangeRate) and
t/2 <= soldSupply, calculateSolForTokens(t, soldSupply, totalSupply, exchangeRate) is at most
currencyAmount. -/
theorem buy_then_sell_le_paid (currencyAmount exchangeRate totalSupply soldSupply : ℚ)
    (hc : 0 ≤ currencyAmount) (hr : 0 < exchangeRate) (hT : 0 < totalSupply)
    (_hs : 0 ≤ soldSupply)
    (ht : Token22.calculateTokensForSol currencyAmount soldSupply totalSupply exchangeRate / 2
            ≤ soldSupply) :
    Token22.calculateSolForTokens
        (Token22.calculateTokensForSol currencyAmount soldSupply totalSupply exchangeRate)
        soldSupply totalSupply exchangeRate
      ≤ currencyAmount := by
  have hP : 0 < Token22.calculatePrice soldSupply totalSupply Token22.defaultInitialMarketCap :=
    Token22.calculatePrice_default_pos soldSupply totalSupply hT
  set t := Token22.calculateTokensForSol currencyAmount soldSupply totalSupply exchangeRate
    with ht_def
  have ht0 : 0 ≤ t := by
    rw [ht_def]
    have hfloor : (0 : ℤ) ≤ Int.floor (currencyAmount * exchangeRate
        / Token22.calculatePrice soldSupply totalSupply Token22.defaultInitialMarketCap) :=
      Int.floor_nonneg.mpr (div_nonneg (mul_nonneg hc hr.le) hP.le)
    show (0 : ℚ) ≤ ((Int.floor (currencyAmount * exchangeRate
        / Token22.calculatePrice soldSupply totalSupply Token22.defaultInitialMarketCap) : ℤ) : ℚ)
    exact_mod_cast hfloor
  have htP : t * Token22.calculatePrice soldSupply totalSupply Token22.defaultInitialMarketCap
      ≤ currencyAmount * exchangeRate := by
    rw [ht_def]
    unfold Token22.calculateTokensForSol
    exact (le_div_iff₀ hP).mp (Int.floor_le _)
  have hmid : Token22.calculatePrice (soldSupply - t / 2) totalSupply
        Token22.defaultInitialMarketCap
      ≤ Token22.calculatePrice soldSupply totalSupply Token22.defaultInitialMarketCap := by
    apply Token22.calculatePrice_le_of_sq_le _ _ _ _ hT (by norm_num [Token22.defaultInitialMarketCap])
    nlinarith
  unfold Token22.calculateSolForTokens
  rw [div_le_iff₀ hr]
  calc t * Token22.calculatePrice (soldSupply - t / 2) totalSupply
          Token22.defaultInitialMarketCap
      ≤ t * Token22.calculatePrice soldSupply totalSupply Token22.defaultInitialMarketCap :=
        mul_le_mul_of_nonneg_left hmid ht0
    _ ≤ currencyAmount * exchangeRate := htP

/-- Buying with 1 unit at rate 150, with 500 of 1000 sold, yields 2 tokens, and selling them
back returns at most 1 unit. -/
theorem buy_then_sell_le_paid_witness :
    Token22.calculateSolForTokens (Token22.calculateTokensForSol 1 500 1000 150) 500 1000 150
      ≤ 1 :=
  buy_then_sell_le_paid 1 150 1000 500 (by norm_num) (by norm_num) (by norm_num) (by norm_num)
    (by
      have h : Token22.calculateTokensForSol 1 500 1000 150 = 2 := by
        simp [Token22.calculateTokensForSol, Token22.calculatePrice,
          Token22.defaultInitialMarketCap]
        norm_num
      rw [h]
      norm_num)

/-! ## Uniqueness of mints -/

/-- C3 as stated fails: when Math.random() yields the same number for two successful creates,
both records get the mint T224FZYO82M; the returned mints are not distinct and two stored
records share a mint. -/
theorem mint_distinct_counterexample :
    returnedMints
        (Server.postAll asciiUpperCase [(firstDraw, RequestBody.object fooBody), (repeatedDraw, RequestBody.object barBody)] []).1
      = ["T224FZYO82M", "T224FZYO82M"] ∧
    (Server.postAll asciiUpperCase [(firstDraw, RequestBody.object fooBody), (repeatedDraw, RequestBody.object barBody)] []).2.map
        Launch.mint
      = ["T224FZYO82M", "T224FZYO82M"] ∧
    ¬ (∀ (toUpperCase : String → String) (reqs : List (Ambient × RequestBody)),
        (∀ r ∈ (Server.postAll toUpperCase reqs []).1, r.isSuccess = true) →
        (returnedMints (Server.postAll toUpperCase reqs []).1).Nodup ∧
        ((Server.postAll toUpperCase reqs []).2.map Launch.mint).Nodup) := by
  refine ⟨by decide, by decide, ?_⟩
  intro h
  have h1 := h asciiUpperCase [(firstDraw, RequestBody.object fooBody), (repeatedDraw, RequestBody.object barBody)] (by decide)
  revert h1
  decide

/-- C3, amended: on a registry whose stored mints are pairwise distinct, for every sequence of
creates whose 8-character suffixes derived from Math.random() are pairwise distinct and whose
mints are not already stored, the returned mints are all different and no two stored records
share a mint; the create of api/launches.js is the same code as the one of server.js. -/
theorem mint_distinct_of_distinct_suffixes (toUpperCase : String → String)
    (reqs : List (Ambient × RequestBody)) (launches : List Launch)
    (hstored : (launches.map Launch.mint).Nodup)
    (hfresh : ∀ r ∈ reqs, mockMint toUpperCase r.1 ∉ launches.map Launch.mint)
    (hsuffix : (reqs.map (fun r => toUpperCase (substring r.1.random36 2 10))).Nodup) :
    (returnedMints (Server.postAll toUpperCase reqs launches).1).Nodup ∧
    ((Server.postAll toUpperCase reqs launches).2.map Launch.mint).Nodup ∧
    (∀ amb body registry, ApiLaunches.handler toUpperCase amb "POST" body registry
        = Server.postApiLaunch toUpperCase amb body registry) := by
  have hmints : (reqs.map (fun r => mockMint toUpperCase r.1)).Nodup := by
    have hcomp : reqs.map (fun r => toUpperCase (substring r.1.random36 2 10))
        = (reqs.map (fun r => mockMint toUpperCase r.1)).map
            (fun m => String.mk (m.data.drop 3)) := by
      rw [List.map_map]
      apply List.map_congr_left
      intro r _
      simp [mockMint, String.data_append]
    rw [hcomp] at hsuffix
    exact List.Nodup.of_map _ hsuffix
  have hsub := postAll_returned_sublist toUpperCase reqs launches
  have hret : (returnedMints (Server.postAll toUpperCase reqs launches).1).Nodup :=
    List.Nodup.sublist hsub hmints
  refine ⟨hret, ?_, fun amb body registry => handler_post toUpperCase amb body registry⟩
  rw [postAll_stored_mints]
  apply List.Nodup.append (List.nodup_reverse.mpr hret) hstored
  intro m hm1 hm2
  rw [List.mem_reverse] at hm1
  have hm3 := List.Sublist.subset hsub hm1
  rw [List.mem_map] at hm3
  obtain ⟨r, hr, rfl⟩ := hm3
  exact hfresh r hr hm2

/-- Two creates on the empty registry with different draws get different mints. -/
theorem mint_distinct_of_distinct_suffixes_witness :
    (returnedMints
        (Server.postAll asciiUpperCase [(firstDraw, RequestBody.object fooBody), (otherDraw, RequestBody.object barBody)] []).1).Nodup ∧
    ((Server.postAll asciiUpperCase [(firstDraw, RequestBody.object fooBody), (otherDraw, RequestBody.object barBody)] []).2.map
        Launch.mint).Nodup :=
  ⟨(mint_distinct_of_distinct_suffixes asciiUpperCase
      [(firstDraw, RequestBody.object fooBody), (otherDraw, RequestBody.object barBody)] [] (by decide) (by decide) (by decide)).1,
   (mint_distinct_of_distinct_suffixes asciiUpperCase
      [(firstDraw, RequestBody.object fooBody), (otherDraw, RequestBody.object barBody)] [] (by decide) (by decide) (by decide)).2.1⟩

/-! ## Insertion at the front -/

/-- C4: for every registry state and every valid input, a successful create leaves the
registry as the new record followed by exactly the previous list, and the list route returns
it; after create(A) then create(B) on an empty registry the list route returns [B, A]. -/
theorem create_inserts_at_front (toUpperCase : String → String) (amb ambA ambB : Ambient)
    (body bodyA bodyB : LaunchBody) (launches : List Launch)
    (hbody : body.isValid = true) (hA : bodyA.isValid = true) (hB : bodyB.isValid = true) :
    (∃ symbol launch,
      body.symbol = JsVal.str symbol ∧
      launch = launchObject toUpperCase amb body (toUpperCase symbol) ∧
      Server.postApiLaunch toUpperCase amb (RequestBody.object body) launches
        = (Response.success launch.mint launch, launch :: launches) ∧
      (Server.getApiLaunches
          (Server.postApiLaunch toUpperCase amb (RequestBody.object body) launches).2).1
        = Response.launches (launch :: launches)) ∧
    (∃ symbolA symbolB a b,
      bodyA.symbol = JsVal.str symbolA ∧ bodyB.symbol = JsVal.str symbolB ∧
      a = launchObject toUpperCase ambA bodyA (toUpperCase symbolA) ∧
      b = launchObject toUpperCase ambB bodyB (toUpperCase symbolB) ∧
      (Server.postAll toUpperCase
          [(ambA, RequestBody.object bodyA), (ambB, RequestBody.object bodyB)] []).1
        = [Response.success a.mint a, Response.success b.mint b] ∧
      (Server.getApiLaunches
          (Server.postAll toUpperCase
            [(ambA, RequestBody.object bodyA), (ambB, RequestBody.object bodyB)] []).2).1
        = Response.launches [b, a]) := by
  constructor
  · obtain ⟨s, hs, h⟩ := createLaunch_of_valid toUpperCase amb body launches hbody
    refine ⟨s, _, hs, rfl, ?_, ?_⟩
    · simpa [Server.postApiLaunch] using h
    · simp [Server.postApiLaunch, Server.getApiLaunches, h]
  · obtain ⟨sA, hsA, hcA⟩ := createLaunch_of_valid toUpperCase ambA bodyA [] hA
    obtain ⟨sB, hsB, hcB⟩ := createLaunch_of_valid toUpperCase ambB bodyB
      [launchObject toUpperCase ambA bodyA (toUpperCase sA)] hB
    refine ⟨sA, sB, _, _, hsA, hsB, rfl, rfl, ?_, ?_⟩
    · simp [Server.postAll, Server.postApiLaunch, hcA, hcB]
      constructor <;> rfl
    · simp [Server.postAll, Server.postApiLaunch, Server.getApiLaunches, hcA, hcB]

/-- After create(Foo) then create(Bar) on the empty registry the list is [Bar, Foo]. -/
theorem create_inserts_at_front_witness :
    (Server.getApiLaunches
        (Server.postAll asciiUpperCase
          [(firstDraw, RequestBody.object fooBody), (otherDraw, RequestBody.object barBody)]
          []).2).1
      = Response.launches
          [launchObject asciiUpperCase otherDraw barBody "BAR",
           launchObject asciiUpperCase firstDraw fooBody "FOO"] := by
  obtain ⟨sA, sB, a, b, hsA, hsB, ha, hb, _, hlist⟩ :=
    (create_inserts_at_front asciiUpperCase firstDraw firstDraw otherDraw fooBody fooBody barBody
      [] (by decide) (by decide) (by decide)).2
  have hA : sA = "foo" := by
    simp only [fooBody, JsVal.str.injEq] at hsA
    exact hsA.symm
  have hB : sB = "bar" := by
    simp only [barBody, JsVal.str.injEq] at hsB
    exact hsB.symm
  have hupA : asciiUpperCase "foo" = "FOO" := by decide
  have hupB : asciiUpperCase "bar" = "BAR" := by decide
  rw [hlist, ha, hb, hA, hB, hupA, hupB]

/-! ## Lookup by mint -/

/-- C5: for every registry state and every string m, the lookup route returns a stored record
whose mint equals m when some stored record has mint m, and answers 404 (Launch not found)
exactly when no stored record has mint m; a mint returned by a prior create is found, with a
record of that mint. -/
theorem get_by_mint_exact (launches : List Launch) (m : String) :
    ((∃ l ∈ launches, l.mint = m) →
      ∃ r, Server.getApiLaunchesMint m launches = (Response.launch r, launches) ∧
        r.mint = m ∧ r ∈ launches) ∧
    ((Server.getApiLaunchesMint m launches).1 = Response.error 404 "Launch not found"
      ↔ ¬ ∃ l ∈ launches, l.mint = m) ∧
    (∀ (toUpperCase : String → String) (reqs : List (Ambient × RequestBody)),
      m ∈ returnedMints (Server.postAll toUpperCase reqs launches).1 →
      ∃ r, Server.getApiLaunchesMint m (Server.postAll toUpperCase reqs launches).2
            = (Response.launch r, (Server.postAll toUpperCase reqs launches).2) ∧
        r.mint = m) := by
  refine ⟨getApiLaunchesMint_found launches m, getApiLaunchesMint_not_found launches m, ?_⟩
  intro toUpperCase reqs hm
  have hstored : m ∈ (Server.postAll toUpperCase reqs launches).2.map Launch.mint := by
    rw [postAll_stored_mints]
    exact List.mem_append_left _ (List.mem_reverse.mpr hm)
  rw [List.mem_map] at hstored
  obtain ⟨l, hl, hlm⟩ := hstored
  obtain ⟨r, hr, hrm, _⟩ := getApiLaunchesMint_found _ m ⟨l, hl, hlm⟩
  exact ⟨r, hr, hrm⟩

/-- After two creates the first mint is found and the mint nonexistent is answered 404. -/
theorem get_by_mint_exact_witness :
    (∃ r, Server.getApiLaunchesMint "T224FZYO82M"
            (Server.postAll asciiUpperCase [(firstDraw, RequestBody.object fooBody), (otherDraw, RequestBody.object barBody)] []).2
          = (Response.launch r,
              (Server.postAll asciiUpperCase [(firstDraw, RequestBody.object fooBody), (otherDraw, RequestBody.object barBody)] []).2) ∧
        r.mint = "T224FZYO82M") ∧
    (Server.getApiLaunchesMint "nonexistent"
        (Server.postAll asciiUpperCase [(firstDraw, RequestBody.object fooBody), (otherDraw, RequestBody.object barBody)] []).2).1
      = Response.error 404 "Launch not found" :=
  ⟨(get_by_mint_exact [] "T224FZYO82M").2.2 asciiUpperCase
      [(firstDraw, RequestBody.object fooBody), (otherDraw, RequestBody.object barBody)] (by decide),
   (get_by_mint_exact
      (Server.postAll asciiUpperCase [(firstDraw, RequestBody.object fooBody), (otherDraw, RequestBody.object barBody)] []).2
      "nonexistent").2.1.mpr (by decide)⟩

/-! ## Validation -/

/-- C6 as stated fails: the body with name 0, symbol foo and creator abc has no required
field missing or empty, yet it is answered 400 (Missing required fields), and so is the body
whose creator is null; and a request without a body, where every field is missing, is answered
500 by the catch clause, not 400. -/
theorem create_validation_counterexample :
    (Server.postApiLaunch asciiUpperCase firstDraw (RequestBody.object zeroNameBody) []).1
      = Response.error 400 "Missing required fields" ∧
    zeroNameBody.lacksRequired = false ∧
    (Server.postApiLaunch asciiUpperCase firstDraw (RequestBody.object nullCreatorBody) []).1
      = Response.error 400 "Missing required fields" ∧
    nullCreatorBody.lacksRequired = false ∧
    (Server.postApiLaunch asciiUpperCase firstDraw RequestBody.undefined []).1
      = Response.error 500
          "Cannot destructure property \x27name\x27 of \x27req.body\x27 as it is undefined." ∧
    ¬ (∀ (toUpperCase : String → String) (amb : Ambient) (body : LaunchBody)
        (launches : List Launch),
        (Server.postApiLaunch toUpperCase amb (RequestBody.object body) launches).1
            = Response.error 400 "Missing required fields"
          ↔ body.lacksRequired = true) := by
  refine ⟨by decide, by decide, by decide, by decide, by decide, ?_⟩
  intro h
  have h1 := (h asciiUpperCase firstDraw zeroNameBody []).mp (by decide)
  revert h1
  decide

/-- C6, amended: for every create request whose body is an object, the route answers 400
(Missing required fields) if and only if at least one of name, symbol, creator is falsy, that
is missing, null, false, 0 or the empty string; when the three fields are strings where
present, this is exactly when one of them is missing or the empty string; and whenever a
create answers with an error, whatever the request, the registry is left unchanged. The same
holds for the POST branch of the handler of api/launches.js. -/
theorem create_validation (toUpperCase : String → String) (amb : Ambient) (body : LaunchBody)
    (reqBody : RequestBody) (launches : List Launch) :
    ((Server.postApiLaunch toUpperCase amb (RequestBody.object body) launches).1
        = Response.error 400 "Missing required fields"
      ↔ body.hasFalsyRequired = true) ∧
    ((ApiLaunches.handler toUpperCase amb "POST" (RequestBody.object body) launches).1
        = Response.error 400 "Missing required fields"
      ↔ body.hasFalsyRequired = true) ∧
    (body.requiredAreStrings = true →
      (body.hasFalsyRequired = true ↔ body.lacksRequired = true)) ∧
    (∀ code message,
      (Server.postApiLaunch toUpperCase amb reqBody launches).1 = Response.error code message →
      (Server.postApiLaunch toUpperCase amb reqBody launches).2 = launches) ∧
    (∀ code message,
      (ApiLaunches.handler toUpperCase amb "POST" reqBody launches).1
        = Response.error code message →
      (ApiLaunches.handler toUpperCase amb "POST" reqBody launches).2 = launches) := by
  have hiff : (Server.postApiLaunch toUpperCase amb (RequestBody.object body) launches).1
        = Response.error 400 "Missing required fields"
      ↔ body.hasFalsyRequired = true :=
    createLaunch_validation_iff toUpperCase amb body launches
  have hframe : ∀ code message,
      (Server.postApiLaunch toUpperCase amb reqBody launches).1 = Response.error code message →
      (Server.postApiLaunch toUpperCase amb reqBody launches).2 = launches :=
    fun code message h => createLaunch_error_frame toUpperCase amb reqBody launches code message h
  refine ⟨hiff, ?_, ?_, hframe, ?_⟩
  · rw [handler_post]
    exact hiff
  · intro htyped
    simp only [LaunchBody.requiredAreStrings, Bool.and_eq_true] at htyped
    obtain ⟨⟨hn, hs⟩, hc⟩ := htyped
    unfold LaunchBody.hasFalsyRequired LaunchBody.lacksRequired
    rw [not_truthy_eq_isMissingOrEmpty _ hn, not_truthy_eq_isMissingOrEmpty _ hs,
      not_truthy_eq_isMissingOrEmpty _ hc]
  · rw [handler_post]
    exact hframe

/-- The body with only a creator is answered 400 and stores nothing; the body Foo is not
answered 400; a request without a body stores nothing. -/
theorem create_validation_witness :
    (Server.postApiLaunch asciiUpperCase firstDraw (RequestBody.object creatorOnlyBody) []).1
      = Response.error 400 "Missing required fields" ∧
    (Server.postApiLaunch asciiUpperCase firstDraw (RequestBody.object creatorOnlyBody) []).2
      = [] ∧
    (Server.postApiLaunch asciiUpperCase firstDraw (RequestBody.object fooBody) []).1
      ≠ Response.error 400 "Missing required fields" ∧
    (Server.postApiLaunch asciiUpperCase firstDraw RequestBody.undefined []).2 = [] :=
  ⟨(create_validation asciiUpperCase firstDraw creatorOnlyBody
      (RequestBody.object creatorOnlyBody) []).1.mpr (by decide),
   (create_validation asciiUpperCase firstDraw creatorOnlyBody
      (RequestBody.object creatorOnlyBody) []).2.2.2.1 400 "Missing required fields"
      ((create_validation asciiUpperCase firstDraw creatorOnlyBody
        (RequestBody.object creatorOnlyBody) []).1.mpr (by decide)),
   fun h => absurd
      ((create_validation asciiUpperCase firstDraw fooBody (RequestBody.object fooBody) []).1.mp h)
      (by decide),
   (create_validation asciiUpperCase firstDraw fooBody RequestBody.undefined []).2.2.2.1 500
      "Cannot destructure property \x27name\x27 of \x27req.body\x27 as it is undefined."
      (by decide)⟩
